import Mathlib

/-!
# Verification of the luminance graphics-context core

Shallow embedding of two source files of the `luminance-rs` workspace:

* `luminance-glfw/src/lib.rs` — the `GlfwSurface` adapter: its error type
  `GlfwSurfaceError`, the multi-stage constructor `new_gl33`, the
  `back_buffer` helper and the `GraphicsContext` implementation (`backend`).
* `luminance/src/context.rs` — the `GraphicsContext` trait with its generic
  resource constructors (`new_buffer`, `new_buffer_from_vec`,
  `new_buffer_repeating`, `new_framebuffer`, `new_shader_stage`,
  `new_texture`) delegating to the per-resource constructors.

External collaborators (the GLFW library, the `luminance-gl` backend, the
`luminance-windowing` configuration types and the per-resource constructors
of `luminance` whose source files are not available here) are modelled as
explicit data: the host windowing system is a record of the outcomes of each
fallible external call, thread-local backend-acquisition state is threaded
explicitly, and effects on the window and the windowing system are recorded
in fields of the corresponding state records.
-/

namespace Luminance

/-- A monitor's reported video mode (`glfw::VidMode`); only the fields read
by the source (`width`, `height`) are modelled. -/
structure VidMode where
  width : Nat
  height : Nat
deriving DecidableEq

/-- A monitor as seen through `glfw::Monitor`: the source only calls
`get_video_mode`, which may report no mode. -/
structure Monitor where
  videoMode : Option VidMode
deriving DecidableEq

/-- `glfw::WindowMode`: windowed, or fullscreen on a given monitor. -/
inductive WindowMode where
  | Windowed
  | FullScreen (m : Monitor)
deriving DecidableEq

/-- Modelled from the spec: `luminance_windowing::WindowDim` (the crate is
part of this repository but its source is not available): dimension mode
`Windowed{width,height}`, `Fullscreen`, or `FullscreenRestricted{width,height}`,
exactly the three cases matched by `new_gl33`. -/
inductive WindowDim where
  | Windowed (width height : Nat)
  | Fullscreen
  | FullscreenRestricted (width height : Nat)
deriving DecidableEq

/-- Modelled from the spec: `luminance_windowing::CursorMode` (source not
available). The source of `new_gl33` matches on the three variants
`Visible`, `Invisible` and `Disabled`; the spec calls the middle one
"Hidden" (hidden-but-free cursor). -/
inductive CursorMode where
  | Visible
  | Invisible
  | Disabled
deriving DecidableEq

/-- `glfw::CursorMode`, the window-system side cursor modes. -/
inductive GlfwCursorMode where
  | Normal
  | Hidden
  | Disabled
deriving DecidableEq

/-- Modelled from the spec: `luminance_windowing::WindowOpt` (source not
available): the immutable window configuration with dimension mode,
multisample count and cursor mode, read by `new_gl33` through `dim`,
`num_samples()` and `cursor_mode()`. -/
structure WindowOpt where
  dim : WindowDim
  cursor_mode : CursorMode
  num_samples : Option Nat
deriving DecidableEq

/-- `glfw::InitError`, an opaque windowing-system initialization error;
only its identity matters to the adapter, so it is a wrapped code. -/
structure InitError where
  code : Nat
deriving DecidableEq

/-- Modelled from the spec: `luminance_gl::gl33::StateQueryError` (the
`luminance-gl` crate is part of this repository but its source is not
available). The spec distinguishes the "backend state already acquired on
this thread" condition from "required state cannot be queried". -/
inductive StateQueryError where
  | unavailableGraphicsState
  | cannotQuery (code : Nat)
deriving DecidableEq

/-- `GlfwSurfaceError` from `luminance-glfw/src/lib.rs`: the closed error
taxonomy of surface construction. -/
inductive GlfwSurfaceError where
  | InitError (e : InitError)
  | WindowCreationFailed
  | NoPrimaryMonitor
  | NoVideoMode
  | GraphicsStateError (e : StateQueryError)
deriving DecidableEq

/-- `glfw::OpenGlProfileHint`; the source only uses `Core`. -/
inductive OpenGlProfileHint where
  | Any
  | Core
  | Compat
deriving DecidableEq

/-- The `glfw::WindowHint`s set by `new_gl33` (OpenGL hints stage). -/
inductive WindowHint where
  | OpenGlProfile (p : OpenGlProfileHint)
  | OpenGlForwardCompat (b : Bool)
  | ContextVersionMajor (v : Nat)
  | ContextVersionMinor (v : Nat)
  | Samples (s : Option Nat)
deriving DecidableEq

/-- `glfw::SwapInterval`; the source only uses `Sync(1)`. -/
inductive SwapInterval where
  | NoSync
  | Adaptive
  | Sync (n : Nat)
deriving DecidableEq

/-- A GLFW window as the adapter observes and mutates it: its creation size,
its mode, the cursor mode applied by `set_cursor_mode` (GLFW's default is
`Normal`), the `set_all_polling` flag, whether `make_current` has been
called, and the framebuffer size reported by `get_framebuffer_size`
(a pair of signed 32-bit values, host-determined by OS scaling). -/
structure Window where
  width : Nat
  height : Nat
  mode : WindowMode
  cursorMode : GlfwCursorMode
  allPolling : Bool
  isCurrent : Bool
  framebufferSize : Int × Int
deriving DecidableEq

/-- What the host windowing system hands back from a successful
`create_window` call: the event-queue receiver (an opaque token) and the
framebuffer size the OS attaches to the new window. -/
structure CreatedWindow where
  eventsRx : Nat
  framebufferSize : Int × Int
deriving DecidableEq

/-- The window produced by a successful `glfw.create_window(w, h, title,
mode)` call: sized as requested, with GLFW's default cursor mode, no
polling enabled yet, not yet current. -/
def mkWindow (w h : Nat) (mode : WindowMode) (cw : CreatedWindow) : Window :=
  { width := w
    height := h
    mode := mode
    cursorMode := GlfwCursorMode.Normal
    allPolling := false
    isCurrent := false
    framebufferSize := cw.framebufferSize }

/-- The host environment: outcomes of every fallible external call the
constructor makes. `initResult` is the outcome of `glfw::init`;
`primaryMonitor` is what `with_primary_monitor` observes; `createWindow`
gives the outcome of `create_window` for each requested size, title and
mode; `stateQuery` is the outcome of querying the required graphics state
for `GL33::new` when the state is not yet acquired on this thread. -/
structure Host where
  initResult : Except InitError Unit
  primaryMonitor : Option Monitor
  createWindow : Nat → Nat → String → WindowMode → Option CreatedWindow
  stateQuery : Except StateQueryError Nat

/-- Thread/window-system state threaded through construction: the
thread-local "graphics state already acquired" flag used by the backend,
the window hints set so far, the context swap interval, and whether GL
symbols have been loaded (`gl::load_with`). -/
structure Sys where
  glAcquired : Bool
  hints : List WindowHint
  swapInterval : Option SwapInterval
  glSymbolsLoaded : Bool
deriving DecidableEq

/-- The OpenGL 3.3 backend value of `luminance-gl`; its cached graphics
state is opaque to the adapter and modelled as the queried state token. -/
structure GL33 where
  state : Nat
deriving DecidableEq

/-- Modelled from the spec: `GL33::new` of `luminance-gl` (source not
available). Backend state acquisition is once-per-thread: it fails with
`unavailableGraphicsState` if the state has already been acquired on this
thread, otherwise it queries the required state (failing if the query
fails) and marks the thread as acquired. -/
def GL33.new (sys : Sys) (host : Host) : Except StateQueryError (GL33 × Sys) :=
  if sys.glAcquired then
    Except.error StateQueryError.unavailableGraphicsState
  else
    match host.stateQuery with
    | Except.ok st => Except.ok ({ state := st }, { sys with glAcquired := true })
    | Except.error e => Except.error e

/-- `GlfwSurface` from `luminance-glfw/src/lib.rs`: the wrapped window, the
events receiver, and the OpenGL 3.3 backend state. -/
structure GlfwSurface where
  window : Window
  events_rx : Nat
  gl : GL33
deriving DecidableEq

/-- The window/monitor-resolution stage of `new_gl33` (the `match dim`
expression, lines 105–133 of `luminance-glfw/src/lib.rs`): branch on the
dimension mode; the fullscreen paths resolve the primary monitor (else
`NoPrimaryMonitor`), the fullscreen-primary path additionally resolves its
current video mode (else `NoVideoMode`) and sizes the window to it; any
failed `create_window` gives `WindowCreationFailed`. -/
def openWindow (host : Host) (title : String) (dim : WindowDim) :
    Except GlfwSurfaceError (Window × Nat) :=
  match dim with
  | WindowDim.Windowed width height =>
    match host.createWindow width height title WindowMode.Windowed with
    | some cw => Except.ok (mkWindow width height WindowMode.Windowed cw, cw.eventsRx)
    | none => Except.error GlfwSurfaceError.WindowCreationFailed
  | WindowDim.Fullscreen =>
    match host.primaryMonitor with
    | none => Except.error GlfwSurfaceError.NoPrimaryMonitor
    | some monitor =>
      match monitor.videoMode with
      | none => Except.error GlfwSurfaceError.NoVideoMode
      | some vmode =>
        match host.createWindow vmode.width vmode.height title (WindowMode.FullScreen monitor) with
        | some cw =>
          Except.ok (mkWindow vmode.width vmode.height (WindowMode.FullScreen monitor) cw, cw.eventsRx)
        | none => Except.error GlfwSurfaceError.WindowCreationFailed
  | WindowDim.FullscreenRestricted width height =>
    match host.primaryMonitor with
    | none => Except.error GlfwSurfaceError.NoPrimaryMonitor
    | some monitor =>
      match host.createWindow width height title (WindowMode.FullScreen monitor) with
      | some cw =>
        Except.ok (mkWindow width height (WindowMode.FullScreen monitor) cw, cw.eventsRx)
      | none => Except.error GlfwSurfaceError.WindowCreationFailed

/-- `GlfwSurface::new_gl33` from `luminance-glfw/src/lib.rs`: initialize the
windowing system (else `InitError`), set the OpenGL window hints, resolve
and create the window (`openWindow`), make its context current, apply the
configured cursor mode, enable all event polling, set the swap interval to
`Sync(1)`, load the GL symbols, acquire the backend state (else
`GraphicsStateError`), and bundle the surface. -/
def GlfwSurface.new_gl33 (title : String) (win_opt : WindowOpt) (sys : Sys) (host : Host) :
    Except GlfwSurfaceError (GlfwSurface × Sys) :=
  match host.initResult with
  | Except.error e => Except.error (GlfwSurfaceError.InitError e)
  | Except.ok _ =>
    let sys := { sys with hints := sys.hints ++
      [ WindowHint.OpenGlProfile OpenGlProfileHint.Core
      , WindowHint.OpenGlForwardCompat true
      , WindowHint.ContextVersionMajor 3
      , WindowHint.ContextVersionMinor 3
      , WindowHint.Samples win_opt.num_samples ] }
    match openWindow host title win_opt.dim with
    | Except.error e => Except.error e
    | Except.ok (window, events_rx) =>
      let window := { window with isCurrent := true }
      let window := { window with cursorMode :=
        match win_opt.cursor_mode with
        | CursorMode.Visible => GlfwCursorMode.Normal
        | CursorMode.Invisible => GlfwCursorMode.Hidden
        | CursorMode.Disabled => GlfwCursorMode.Disabled }
      let window := { window with allPolling := true }
      let sys := { sys with swapInterval := some (SwapInterval.Sync 1) }
      let sys := { sys with glSymbolsLoaded := true }
      match GL33.new sys host with
      | Except.error e => Except.error (GlfwSurfaceError.GraphicsStateError e)
      | Except.ok (gl, sys) =>
        Except.ok ({ window := window, events_rx := events_rx, gl := gl }, sys)

/-- The wrapping `i32 as u32` cast used by `back_buffer` on the values of
`get_framebuffer_size`: the value modulo `2^32`, as a natural number. -/
def i32_as_u32 (v : Int) : Nat :=
  (v % (2 ^ 32 : Int)).toNat

/-- Modelled from the spec: the per-resource error type of the framebuffer
constructor (`luminance::framebuffer::FramebufferError`, source not
available); only its identity matters to the layers modelled here. -/
structure FramebufferError where
  code : Nat
deriving DecidableEq

/-- Modelled from the spec: the backend's framebuffer-storage capability for
the window's default render target — it accepts or rejects a requested
size (e.g., rejects zero width/height), possibly updating backend state. -/
structure BackBufferCap where
  run : GL33 → Nat × Nat → Except FramebufferError GL33

/-- A `Framebuffer<GL33, Dim2, (), ()>`: the back buffer, a two-dimensional
framebuffer with zero color channels and zero depth slot at a given size. -/
structure BackFramebuffer where
  size : Nat × Nat
  colorSlot : Unit
  depthSlot : Unit
deriving DecidableEq

/-- Modelled from the spec: `Framebuffer::back_buffer` of `luminance`
(source not available): constructs a zero-channel, zero-depth-slot
framebuffer representing the window's own default render target at the
given size, through the context's backend; returns a framebuffer error if
the backend rejects the size. -/
def Framebuffer.back_buffer (cap : BackBufferCap) (s : GlfwSurface) (size : Nat × Nat) :
    Except FramebufferError (BackFramebuffer × GlfwSurface) :=
  match cap.run s.gl size with
  | Except.ok gl => Except.ok ({ size := size, colorSlot := (), depthSlot := () }, { s with gl := gl })
  | Except.error e => Except.error e

/-- `GlfwSurface::back_buffer` (lines 160–163): query the window's current
framebuffer size `(w, h)` (signed 32-bit values) and request the back
buffer at `[w as u32, h as u32]`. -/
def GlfwSurface.back_buffer (cap : BackBufferCap) (s : GlfwSurface) :
    Except FramebufferError (BackFramebuffer × GlfwSurface) :=
  Framebuffer.back_buffer cap s
    (i32_as_u32 s.window.framebufferSize.1, i32_as_u32 s.window.framebufferSize.2)

/-- `GlfwSurface::backend` (the `GraphicsContext` implementation,
lines 169–171): hand out the owned backend, `&mut self.gl`. A Rust mutable
reference is embedded as the getter half of a lens on the `gl` field. -/
def GlfwSurface.backend (s : GlfwSurface) : GL33 :=
  s.gl

/-- Setter half of the `&mut self.gl` lens: writing back through the
mutable reference returned by `backend` updates exactly the `gl` field. -/
def GlfwSurface.withBackend (s : GlfwSurface) (g : GL33) : GlfwSurface :=
  { s with gl := g }

/-- The two items a `GraphicsContext` implementation provides
(`luminance/src/context.rs`, trait `GraphicsContext`): the backend type and
mutable access to the owned backend instance, embedded as a lens on the
context value. -/
structure GCtx (C B : Type) where
  backend : C → B
  withBackend : C → B → C

/-- The `GraphicsContext` implementation of `GlfwSurface`
(lines 166–172 of `luminance-glfw/src/lib.rs`): `Backend = GL33`,
`backend` returns `&mut self.gl`. -/
def glfwGraphicsContext : GCtx GlfwSurface GL33 :=
  { backend := GlfwSurface.backend, withBackend := GlfwSurface.withBackend }

/-- Modelled from the spec: the per-resource error types of the buffer,
shader-stage and texture constructors (sources not available); each is an
independent type scoped to its resource kind and only its identity matters
to the context layer. -/
structure BufferError where
  code : Nat
deriving DecidableEq

/-- Modelled from the spec: shader-stage compilation error, carrying
compiler diagnostics. -/
structure StageError where
  diagnostics : String
deriving DecidableEq

/-- Modelled from the spec: texture-creation error. -/
structure TextureError where
  code : Nat
deriving DecidableEq

/-- Modelled from the spec: sampler configuration passed to framebuffer and
texture constructors; opaque to the layers modelled here. -/
structure Sampler where
  code : Nat
deriving DecidableEq

/-- Modelled from the spec: shader stage type (vertex / fragment / etc.). -/
inductive StageType where
  | VertexShader
  | TessellationControlShader
  | TessellationEvaluationShader
  | GeometryShader
  | FragmentShader
deriving DecidableEq

/-- A buffer resource handle tagged by its backend type `B` and element
type `T`; it embeds an opaque backend-side token. -/
structure Buffer (B T : Type) where
  token : Nat
deriving DecidableEq

/-- A framebuffer resource handle tagged by backend `B`, dimensionality
`D` and color/depth slots `CS`, `DS`. -/
structure FramebufferH (B D CS DS : Type) where
  token : Nat
deriving DecidableEq

/-- A shader-stage resource handle tagged by backend `B`. -/
structure Stage (B : Type) where
  token : Nat
deriving DecidableEq

/-- A texture resource handle tagged by backend `B`, dimensionality `D`
and pixel format `P`. -/
structure Texture (B D P : Type) where
  token : Nat
deriving DecidableEq

/-- Modelled from the spec: the buffer-storage capability trait
(`luminance::backend::buffer::Buffer<T>`, source not available): the
backend's three buffer-allocation operations, each returning a handle and
updated backend state, or a backend-defined buffer error. -/
structure BufferBackend (B T : Type) where
  newBuffer : B → Nat → Except BufferError (Buffer B T × B)
  fromVec : B → List T → Except BufferError (Buffer B T × B)
  repeatValue : B → Nat → T → Except BufferError (Buffer B T × B)

/-- Modelled from the spec: the framebuffer-storage capability for a
dimensionality with size type `SZ`. -/
structure FramebufferBackend (B SZ : Type) where
  newFramebuffer : B → SZ → Nat → Sampler → Except FramebufferError (Nat × B)

/-- Modelled from the spec: the shader capability (stage compilation). -/
structure ShaderBackend (B : Type) where
  newStage : B → StageType → String → Except StageError (Stage B × B)

/-- Modelled from the spec: the texture-storage capability for a
(dimensionality, pixel format) pair with size type `SZ`. -/
structure TextureBackend (B SZ : Type) where
  newTexture : B → SZ → Nat → Sampler → Except TextureError (Nat × B)

/-- Modelled from the spec: `Buffer::new` (`luminance/src/buffer.rs`,
source not available): allocate a buffer of `len` elements through the
context's backend, forwarding any backend error unchanged. -/
def Buffer.new {C B T : Type} (gc : GCtx C B) (cap : BufferBackend B T) (c : C) (len : Nat) :
    Except BufferError (Buffer B T × C) :=
  match cap.newBuffer (gc.backend c) len with
  | Except.ok (h, b) => Except.ok (h, gc.withBackend c b)
  | Except.error e => Except.error e

/-- Modelled from the spec: `Buffer::from_vec`: allocate a buffer holding
the given contents, forwarding any backend error unchanged. -/
def Buffer.from_vec {C B T : Type} (gc : GCtx C B) (cap : BufferBackend B T) (c : C) (vec : List T) :
    Except BufferError (Buffer B T × C) :=
  match cap.fromVec (gc.backend c) vec with
  | Except.ok (h, b) => Except.ok (h, gc.withBackend c b)
  | Except.error e => Except.error e

/-- Modelled from the spec: `Buffer::repeat`: allocate a buffer of `len`
copies of `value`, forwarding any backend error unchanged. (`repeat` is a
reserved word in Lean, hence the name.) -/
def Buffer.repeatNew {C B T : Type} (gc : GCtx C B) (cap : BufferBackend B T) (c : C) (len : Nat)
    (value : T) : Except BufferError (Buffer B T × C) :=
  match cap.repeatValue (gc.backend c) len value with
  | Except.ok (h, b) => Except.ok (h, gc.withBackend c b)
  | Except.error e => Except.error e

/-- Modelled from the spec: `Framebuffer::new`: allocate an off-screen
framebuffer through the backend's framebuffer-storage capability,
forwarding any backend error unchanged. -/
def Framebuffer.new {C B SZ CS DS : Type} (gc : GCtx C B) (cap : FramebufferBackend B SZ) (c : C)
    (size : SZ) (mipmaps : Nat) (sampler : Sampler) :
    Except FramebufferError (FramebufferH B SZ CS DS × C) :=
  match cap.newFramebuffer (gc.backend c) size mipmaps sampler with
  | Except.ok (t, b) => Except.ok ({ token := t }, gc.withBackend c b)
  | Except.error e => Except.error e

/-- Modelled from the spec: `Stage::new`: compile one shader stage from
source text, forwarding any compile error (with diagnostics) unchanged. -/
def Stage.new {C B : Type} (gc : GCtx C B) (cap : ShaderBackend B) (c : C) (ty : StageType)
    (src : String) : Except StageError (Stage B × C) :=
  match cap.newStage (gc.backend c) ty src with
  | Except.ok (h, b) => Except.ok (h, gc.withBackend c b)
  | Except.error e => Except.error e

/-- Modelled from the spec: `Texture::new`: allocate a texture through the
backend's texture-storage capability, forwarding any error unchanged. -/
def Texture.new {C B SZ P : Type} (gc : GCtx C B) (cap : TextureBackend B SZ) (c : C) (size : SZ)
    (mipmaps : Nat) (sampler : Sampler) : Except TextureError (Texture B SZ P × C) :=
  match cap.newTexture (gc.backend c) size mipmaps sampler with
  | Except.ok (t, b) => Except.ok ({ token := t }, gc.withBackend c b)
  | Except.error e => Except.error e

namespace GraphicsContext

/-- `GraphicsContext::new_buffer` (`luminance/src/context.rs`, lines 82–88):
`Buffer::new(self, len)`. -/
def new_buffer {C B T : Type} (gc : GCtx C B) (cap : BufferBackend B T) (c : C) (len : Nat) :
    Except BufferError (Buffer B T × C) :=
  Buffer.new gc cap c len

/-- `GraphicsContext::new_buffer_from_vec` (lines 93–100):
`Buffer::from_vec(self, vec)`. -/
def new_buffer_from_vec {C B T : Type} (gc : GCtx C B) (cap : BufferBackend B T) (c : C)
    (vec : List T) : Except BufferError (Buffer B T × C) :=
  Buffer.from_vec gc cap c vec

/-- `GraphicsContext::new_buffer_repeating` (lines 105–115):
`Buffer::repeat(self, len, value)`. -/
def new_buffer_repeating {C B T : Type} (gc : GCtx C B) (cap : BufferBackend B T) (c : C)
    (len : Nat) (value : T) : Except BufferError (Buffer B T × C) :=
  Buffer.repeatNew gc cap c len value

/-- `GraphicsContext::new_framebuffer` (lines 120–133):
`Framebuffer::new(self, size, mipmaps, sampler)`. -/
def new_framebuffer {C B SZ CS DS : Type} (gc : GCtx C B) (cap : FramebufferBackend B SZ) (c : C)
    (size : SZ) (mipmaps : Nat) (sampler : Sampler) :
    Except FramebufferError (FramebufferH B SZ CS DS × C) :=
  Framebuffer.new gc cap c size mipmaps sampler

/-- `GraphicsContext::new_shader_stage` (lines 138–148):
`Stage::new(self, ty, src)`. -/
def new_shader_stage {C B : Type} (gc : GCtx C B) (cap : ShaderBackend B) (c : C) (ty : StageType)
    (src : String) : Except StageError (Stage B × C) :=
  Stage.new gc cap c ty src

/-- `GraphicsContext::new_texture` (lines 186–198):
`Texture::new(self, size, mipmaps, sampler)`. -/
def new_texture {C B SZ P : Type} (gc : GCtx C B) (cap : TextureBackend B SZ) (c : C) (size : SZ)
    (mipmaps : Nat) (sampler : Sampler) : Except TextureError (Texture B SZ P × C) :=
  Texture.new gc cap c size mipmaps sampler

end GraphicsContext

deriving instance DecidableEq for Except

/-- The cursor-mode mapping stated by the spec: visible cursor for
`Visible`, hidden-but-free cursor for the hidden (`Invisible`) mode,
captured-and-disabled cursor for `Disabled`. -/
def cursorModeGlfw : CursorMode → GlfwCursorMode
  | CursorMode.Visible => GlfwCursorMode.Normal
  | CursorMode.Invisible => GlfwCursorMode.Hidden
  | CursorMode.Disabled => GlfwCursorMode.Disabled

/-! ## Sample hosts and states, used to instantiate the theorems -/

/-- A fully functional host: init succeeds, a primary monitor with a
1920×1080 video mode is present, every window creation succeeds (the OS
reports a framebuffer of exactly the requested size), and the graphics
state query succeeds. -/
def goodHost : Host :=
  { initResult := Except.ok ()
    primaryMonitor := some { videoMode := some { width := 1920, height := 1080 } }
    createWindow := fun w h _ _ => some { eventsRx := 0, framebufferSize := ((w : Int), (h : Int)) }
    stateQuery := Except.ok 0 }

/-- A host whose windowing system reports no primary monitor. -/
def noMonitorHost : Host :=
  { goodHost with primaryMonitor := none }

/-- A host reporting a primary monitor with no video mode. -/
def noVidModeHost : Host :=
  { goodHost with primaryMonitor := some { videoMode := none } }

/-- A fresh thread/window-system state: backend not yet acquired. -/
def sys0 : Sys :=
  { glAcquired := false, hints := [], swapInterval := none, glSymbolsLoaded := false }

/-- A thread state on which the backend graphics state has already been
acquired. -/
def sysAcquired : Sys :=
  { sys0 with glAcquired := true }

/-- A windowed 800×600 configuration with a visible cursor and no
multisampling. -/
def optWindowed : WindowOpt :=
  { dim := WindowDim.Windowed 800 600, cursor_mode := CursorMode.Visible, num_samples := none }

/-- A fullscreen-on-primary-display configuration. -/
def optFullscreen : WindowOpt :=
  { dim := WindowDim.Fullscreen, cursor_mode := CursorMode.Visible, num_samples := none }

/-- A host on which every window creation fails. -/
def noWindowHost : Host :=
  { goodHost with createWindow := fun _ _ _ _ => none }

/-- The surface produced by constructing with `optWindowed` on `goodHost`
from a fresh thread state. -/
def okSurface : GlfwSurface :=
  { window :=
      { width := 800
        height := 600
        mode := WindowMode.Windowed
        cursorMode := GlfwCursorMode.Normal
        allPolling := true
        isCurrent := true
        framebufferSize := (800, 600) }
    events_rx := 0
    gl := { state := 0 } }

/-- The thread/window-system state after that successful construction. -/
def okSys : Sys :=
  { glAcquired := true
    hints :=
      [ WindowHint.OpenGlProfile OpenGlProfileHint.Core
      , WindowHint.OpenGlForwardCompat true
      , WindowHint.ContextVersionMajor 3
      , WindowHint.ContextVersionMinor 3
      , WindowHint.Samples none ]
    swapInterval := some (SwapInterval.Sync 1)
    glSymbolsLoaded := true }

/-- A back-buffer capability that accepts every size. -/
def acceptAllCap : BackBufferCap :=
  { run := fun g _ => Except.ok g }

/-- A surface whose window reports an 800×600 framebuffer. -/
def sampleSurface : GlfwSurface :=
  okSurface

/-- A surface whose window reports a negative framebuffer width, as a host
could through OS scaling pathologies (`get_framebuffer_size` returns
signed 32-bit values). -/
def negSurface : GlfwSurface :=
  { okSurface with window := { okSurface.window with framebufferSize := (-1, 600) } }

/-! ## Helper lemmas on the construction stages -/

/-- The thread/window-system state after the hint, swap-interval and
symbol-loading effects of `new_gl33`, as passed to backend acquisition. -/
def configuredSys (sys : Sys) (win_opt : WindowOpt) : Sys :=
  { sys with
    hints := sys.hints ++
      [ WindowHint.OpenGlProfile OpenGlProfileHint.Core
      , WindowHint.OpenGlForwardCompat true
      , WindowHint.ContextVersionMajor 3
      , WindowHint.ContextVersionMinor 3
      , WindowHint.Samples win_opt.num_samples ]
    swapInterval := some (SwapInterval.Sync 1)
    glSymbolsLoaded := true }

/-- The window after the context-activation and input-configuration stages
of `new_gl33`. -/
def configuredWindow (w : Window) (win_opt : WindowOpt) : Window :=
  { w with
    isCurrent := true
    cursorMode :=
      match win_opt.cursor_mode with
      | CursorMode.Visible => GlfwCursorMode.Normal
      | CursorMode.Invisible => GlfwCursorMode.Hidden
      | CursorMode.Disabled => GlfwCursorMode.Disabled
    allPolling := true }

theorem new_gl33_init_error {title : String} {win_opt : WindowOpt} {sys : Sys} {host : Host}
    {e : InitError} (h : host.initResult = Except.error e) :
    GlfwSurface.new_gl33 title win_opt sys host = Except.error (GlfwSurfaceError.InitError e) := by
  simp [GlfwSurface.new_gl33, h]

theorem new_gl33_window_error {title : String} {win_opt : WindowOpt} {sys : Sys} {host : Host}
    {e : GlfwSurfaceError} (h1 : host.initResult = Except.ok ())
    (h2 : openWindow host title win_opt.dim = Except.error e) :
    GlfwSurface.new_gl33 title win_opt sys host = Except.error e := by
  simp [GlfwSurface.new_gl33, h1, h2]

theorem new_gl33_of_stages {title : String} {win_opt : WindowOpt} {sys : Sys} {host : Host}
    {w : Window} {rx : Nat} (h1 : host.initResult = Except.ok ())
    (h2 : openWindow host title win_opt.dim = Except.ok (w, rx)) :
    GlfwSurface.new_gl33 title win_opt sys host =
      match GL33.new (configuredSys sys win_opt) host with
      | Except.error e => Except.error (GlfwSurfaceError.GraphicsStateError e)
      | Except.ok (gl, sys') =>
        Except.ok ({ window := configuredWindow w win_opt, events_rx := rx, gl := gl }, sys') := by
  simp [GlfwSurface.new_gl33, h1, h2, configuredSys, configuredWindow]

theorem GL33.new_acquired (sys : Sys) (host : Host) (h : sys.glAcquired = true) :
    GL33.new sys host = Except.error StateQueryError.unavailableGraphicsState := by
  simp [GL33.new, h]

theorem GL33.new_ok_iff (sys : Sys) (host : Host) :
    (∃ g sys', GL33.new sys host = Except.ok (g, sys')) ↔
      (sys.glAcquired = false ∧ ∃ st, host.stateQuery = Except.ok st) := by
  unfold GL33.new
  cases hacq : sys.glAcquired with
  | true => simp
  | false =>
    cases hq : host.stateQuery with
    | ok st => simp [hq]
    | error e => simp [hq]

theorem GL33.new_ok_acquires {sys sys' : Sys} {host : Host} {g : GL33}
    (h : GL33.new sys host = Except.ok (g, sys')) : sys'.glAcquired = true := by
  unfold GL33.new at h
  cases hacq : sys.glAcquired with
  | true => simp [hacq] at h
  | false =>
    cases hq : host.stateQuery with
    | ok st =>
      simp [hacq, hq] at h
      cases h with
      | intro h1 h2 => rw [← h2]
    | error e => simp [hacq, hq] at h

theorem GL33.new_ok_sys {sys sys' : Sys} {host : Host} {g : GL33}
    (h : GL33.new sys host = Except.ok (g, sys')) : sys' = { sys with glAcquired := true } := by
  unfold GL33.new at h
  cases hacq : sys.glAcquired with
  | true => simp [hacq] at h
  | false =>
    cases hq : host.stateQuery with
    | ok st =>
      simp [hacq, hq] at h
      exact h.2.symm
    | error e => simp [hacq, hq] at h

theorem new_gl33_ok_elim {title : String} {win_opt : WindowOpt} {sys sys' : Sys} {host : Host}
    {s : GlfwSurface} (h : GlfwSurface.new_gl33 title win_opt sys host = Except.ok (s, sys')) :
    host.initResult = Except.ok () ∧
      (∃ w rx, openWindow host title win_opt.dim = Except.ok (w, rx) ∧
        s.window = configuredWindow w win_opt ∧ s.events_rx = rx) ∧
      GL33.new (configuredSys sys win_opt) host = Except.ok (s.gl, sys') := by
  cases hinit : host.initResult with
  | error e => rw [new_gl33_init_error hinit] at h; exact absurd h (by simp)
  | ok u =>
    cases u
    cases hw : openWindow host title win_opt.dim with
    | error e => rw [new_gl33_window_error hinit hw] at h; exact absurd h (by simp)
    | ok p =>
      cases p with
      | mk w rx =>
        rw [new_gl33_of_stages hinit hw] at h
        cases hgl : GL33.new (configuredSys sys win_opt) host with
        | error e => rw [hgl] at h; exact absurd h (by simp)
        | ok p' =>
          cases p' with
          | mk g sys2 =>
            rw [hgl] at h
            simp only [Except.ok.injEq, Prod.mk.injEq] at h
            obtain ⟨hs, hsys⟩ := h
            subst hs
            subst hsys
            exact ⟨rfl, ⟨w, rx, rfl, rfl, rfl⟩, rfl⟩

/-! ## Claim theorems -/

/-- C1: On the fullscreen (primary display) path, once windowing-system
initialization has succeeded, `new_gl33` first looks up the primary
monitor and fails with `NoPrimaryMonitor` if it is absent; otherwise it
looks up that monitor's current video mode and fails with `NoVideoMode` if
it is absent; otherwise it creates the window sized to that video mode's
width and height on that monitor, failing with `WindowCreationFailed` when
window creation returns nothing. -/
theorem fullscreen_resolution_order (title : String) (win_opt : WindowOpt) (sys : Sys)
    (host : Host) (hdim : win_opt.dim = WindowDim.Fullscreen)
    (hinit : host.initResult = Except.ok ()) :
    (host.primaryMonitor = none →
      GlfwSurface.new_gl33 title win_opt sys host =
        Except.error GlfwSurfaceError.NoPrimaryMonitor) ∧
    (∀ m, host.primaryMonitor = some m → m.videoMode = none →
      GlfwSurface.new_gl33 title win_opt sys host = Except.error GlfwSurfaceError.NoVideoMode) ∧
    (∀ m vm, host.primaryMonitor = some m → m.videoMode = some vm →
      host.createWindow vm.width vm.height title (WindowMode.FullScreen m) = none →
      GlfwSurface.new_gl33 title win_opt sys host =
        Except.error GlfwSurfaceError.WindowCreationFailed) ∧
    (∀ m vm cw, host.primaryMonitor = some m → m.videoMode = some vm →
      host.createWindow vm.width vm.height title (WindowMode.FullScreen m) = some cw →
      ∀ s sys', GlfwSurface.new_gl33 title win_opt sys host = Except.ok (s, sys') →
        s.window.width = vm.width ∧ s.window.height = vm.height) := by
  refine ⟨?_, ?_, ?_, ?_⟩
  · intro hmon
    exact new_gl33_window_error hinit (by simp [openWindow, hdim, hmon])
  · intro m hmon hvm
    exact new_gl33_window_error hinit (by simp [openWindow, hdim, hmon, hvm])
  · intro m vm hmon hvm hcw
    exact new_gl33_window_error hinit (by simp [openWindow, hdim, hmon, hvm, hcw])
  · intro m vm cw hmon hvm hcw s sys' hok
    obtain ⟨_, ⟨w, rx, hw, hsw, _⟩, _⟩ := new_gl33_ok_elim hok
    have hw' : openWindow host title win_opt.dim =
        Except.ok (mkWindow vm.width vm.height (WindowMode.FullScreen m) cw, cw.eventsRx) := by
      simp [openWindow, hdim, hmon, hvm, hcw]
    rw [hw'] at hw
    simp only [Except.ok.injEq, Prod.mk.injEq] at hw
    rw [hsw, ← hw.1]
    exact ⟨rfl, rfl⟩

/-- C1 witness: on a host with no primary monitor, a fullscreen
construction attempt fails with `NoPrimaryMonitor`. -/
theorem fullscreen_resolution_order_witness :
    GlfwSurface.new_gl33 "t" optFullscreen sys0 noMonitorHost =
      Except.error GlfwSurfaceError.NoPrimaryMonitor :=
  (fullscreen_resolution_order "t" optFullscreen sys0 noMonitorHost rfl rfl).1 rfl

/-- C2: `new_gl33` returns a surface exactly when every fallible stage
succeeds: windowing-system initialization, window/monitor/video-mode
resolution and window creation (`openWindow`), and backend state
acquisition (`GL33.new`); if any of them fails, no surface is returned. -/
theorem new_gl33_ok_iff_stages (title : String) (win_opt : WindowOpt) (sys : Sys) (host : Host) :
    (∃ s sys', GlfwSurface.new_gl33 title win_opt sys host = Except.ok (s, sys')) ↔
      (host.initResult = Except.ok () ∧
        (∃ w rx, openWindow host title win_opt.dim = Except.ok (w, rx)) ∧
        (∃ g sys', GL33.new sys host = Except.ok (g, sys'))) := by
  constructor
  · rintro ⟨s, sys', hok⟩
    obtain ⟨hinit, ⟨w, rx, hw, -, -⟩, hgl⟩ := new_gl33_ok_elim hok
    refine ⟨hinit, ⟨w, rx, hw⟩, ?_⟩
    rw [GL33.new_ok_iff]
    exact (GL33.new_ok_iff (configuredSys sys win_opt) host).mp ⟨s.gl, sys', hgl⟩
  · rintro ⟨hinit, ⟨w, rx, hw⟩, hgl⟩
    rw [new_gl33_of_stages hinit hw]
    have hcfg : ∃ g sys', GL33.new (configuredSys sys win_opt) host = Except.ok (g, sys') := by
      rw [GL33.new_ok_iff]
      exact (GL33.new_ok_iff sys host).mp hgl
    obtain ⟨g, sys', hcfg⟩ := hcfg
    exact ⟨_, _, by rw [hcfg]⟩

/-- C3: After a first successful construction on a thread, the backend
state is marked acquired; a second construction on that thread can never
return a surface, and whenever it reaches backend state acquisition (its
earlier stages succeed) it fails with exactly
`GraphicsStateError (unavailableGraphicsState)`. -/
theorem second_acquisition_fails (t1 : String) (w1 : WindowOpt) (sys sys1 : Sys) (h1 : Host)
    (s1 : GlfwSurface) (hfirst : GlfwSurface.new_gl33 t1 w1 sys h1 = Except.ok (s1, sys1)) :
    sys1.glAcquired = true ∧
    (∀ t2 w2 h2 s2 sys2, GlfwSurface.new_gl33 t2 w2 sys1 h2 ≠ Except.ok (s2, sys2)) ∧
    (∀ t2 (w2 : WindowOpt) (h2 : Host), h2.initResult = Except.ok () →
      (∃ w rx, openWindow h2 t2 w2.dim = Except.ok (w, rx)) →
      GlfwSurface.new_gl33 t2 w2 sys1 h2 =
        Except.error (GlfwSurfaceError.GraphicsStateError
          StateQueryError.unavailableGraphicsState)) := by
  obtain ⟨-, -, hgl1⟩ := new_gl33_ok_elim hfirst
  have hacq : sys1.glAcquired = true := GL33.new_ok_acquires hgl1
  refine ⟨hacq, ?_, ?_⟩
  · intro t2 w2 h2 s2 sys2 hok
    obtain ⟨-, -, hgl2⟩ := new_gl33_ok_elim hok
    have := (GL33.new_ok_iff (configuredSys sys1 w2) h2).mp ⟨s2.gl, sys2, hgl2⟩
    have hfalse : sys1.glAcquired = false := this.1
    rw [hacq] at hfalse
    exact Bool.noConfusion hfalse
  · intro t2 w2 h2 hinit2 ⟨w, rx, hw2⟩
    rw [new_gl33_of_stages hinit2 hw2]
    rw [GL33.new_acquired (configuredSys sys1 w2) h2 hacq]

/-- C3 witness: a concrete first construction succeeds on `goodHost`, and
a second construction on the resulting thread state fails with
`GraphicsStateError (unavailableGraphicsState)`. -/
theorem second_acquisition_fails_witness :
    GlfwSurface.new_gl33 "u" optWindowed okSys goodHost =
      Except.error (GlfwSurfaceError.GraphicsStateError
        StateQueryError.unavailableGraphicsState) :=
  (second_acquisition_fails "t" optWindowed sys0 okSys goodHost okSurface (by decide)).2.2
    "u" optWindowed goodHost rfl
    ⟨mkWindow 800 600 WindowMode.Windowed { eventsRx := 0, framebufferSize := (800, 600) }, 0, rfl⟩

/-- C4: Every generic constructor on the graphics context returns exactly
the result of the corresponding underlying resource constructor called
with the same arguments — for every backend, capability, context value and
input; in particular every error value is propagated unchanged. -/
theorem context_constructors_delegate :
    (∀ (C B T : Type) (gc : GCtx C B) (cap : BufferBackend B T) (c : C) (len : Nat),
      GraphicsContext.new_buffer gc cap c len = Buffer.new gc cap c len) ∧
    (∀ (C B T : Type) (gc : GCtx C B) (cap : BufferBackend B T) (c : C) (vec : List T),
      GraphicsContext.new_buffer_from_vec gc cap c vec = Buffer.from_vec gc cap c vec) ∧
    (∀ (C B T : Type) (gc : GCtx C B) (cap : BufferBackend B T) (c : C) (len : Nat) (value : T),
      GraphicsContext.new_buffer_repeating gc cap c len value = Buffer.repeatNew gc cap c len value) ∧
    (∀ (C B SZ CS DS : Type) (gc : GCtx C B) (cap : FramebufferBackend B SZ) (c : C) (size : SZ)
      (mipmaps : Nat) (sampler : Sampler),
      (GraphicsContext.new_framebuffer gc cap c size mipmaps sampler :
          Except FramebufferError (FramebufferH B SZ CS DS × C)) =
        Framebuffer.new gc cap c size mipmaps sampler) ∧
    (∀ (C B : Type) (gc : GCtx C B) (cap : ShaderBackend B) (c : C) (ty : StageType)
      (src : String),
      GraphicsContext.new_shader_stage gc cap c ty src = Stage.new gc cap c ty src) ∧
    (∀ (C B SZ P : Type) (gc : GCtx C B) (cap : TextureBackend B SZ) (c : C) (size : SZ)
      (mipmaps : Nat) (sampler : Sampler),
      (GraphicsContext.new_texture gc cap c size mipmaps sampler :
          Except TextureError (Texture B SZ P × C)) =
        Texture.new gc cap c size mipmaps sampler) :=
  ⟨fun _ _ _ _ _ _ _ => rfl, fun _ _ _ _ _ _ _ => rfl, fun _ _ _ _ _ _ _ _ => rfl,
   fun _ _ _ _ _ _ _ _ _ _ _ => rfl, fun _ _ _ _ _ _ _ => rfl,
   fun _ _ _ _ _ _ _ _ _ _ => rfl⟩

/-- C5 counterexample: on a fully functional host, a windowed 800×600
construction attempted on a thread whose backend state is already acquired
fails with `GraphicsStateError` — neither a successful adapter of that
size nor `WindowCreationFailed`, refuting the claimed dichotomy. -/
theorem windowed_dichotomy_cex :
    ¬ ((match GlfwSurface.new_gl33 "t" optWindowed sysAcquired goodHost with
        | Except.ok (s, _) => s.window.width = 800 ∧ s.window.height = 600
        | Except.error _ => False) ∨
       GlfwSurface.new_gl33 "t" optWindowed sysAcquired goodHost =
         Except.error GlfwSurfaceError.WindowCreationFailed) := by
  have hres : GlfwSurface.new_gl33 "t" optWindowed sysAcquired goodHost =
      Except.error (GlfwSurfaceError.GraphicsStateError
        StateQueryError.unavailableGraphicsState) := by
    decide
  intro hclaim
  rw [hres] at hclaim
  rcases hclaim with h1 | h2
  · exact h1
  · exact absurd h2 (by decide)

/-- C5 amended: for windowed configurations with positive width and
height, construction either produces an adapter whose window was created
at exactly the requested size, or fails with `WindowCreationFailed`,
`InitError` (windowing-system initialization failure) or
`GraphicsStateError` (backend state acquisition failure); it never returns
`NoPrimaryMonitor` or `NoVideoMode` on the windowed path. -/
theorem windowed_construction_amended (title : String) (win_opt : WindowOpt)
    (width height : Nat) (sys : Sys) (host : Host)
    (hdim : win_opt.dim = WindowDim.Windowed width height)
    (hwpos : 0 < width) (hhpos : 0 < height) :
    (∀ s sys', GlfwSurface.new_gl33 title win_opt sys host = Except.ok (s, sys') →
      s.window.width = width ∧ s.window.height = height) ∧
    (∀ e, GlfwSurface.new_gl33 title win_opt sys host = Except.error e →
      (e = GlfwSurfaceError.WindowCreationFailed ∨
       (∃ ie, e = GlfwSurfaceError.InitError ie) ∨
       (∃ se, e = GlfwSurfaceError.GraphicsStateError se))) := by
  constructor
  · intro s sys' hok
    obtain ⟨-, ⟨w, rx, hw, hsw, -⟩, -⟩ := new_gl33_ok_elim hok
    cases hcw : host.createWindow width height title WindowMode.Windowed with
    | none => simp [openWindow, hdim, hcw] at hw
    | some cw =>
      have hw' : openWindow host title win_opt.dim =
          Except.ok (mkWindow width height WindowMode.Windowed cw, cw.eventsRx) := by
        simp [openWindow, hdim, hcw]
      rw [hw'] at hw
      simp only [Except.ok.injEq, Prod.mk.injEq] at hw
      rw [hsw, ← hw.1]
      exact ⟨rfl, rfl⟩
  · intro e herr
    cases hinit : host.initResult with
    | error ie =>
      rw [new_gl33_init_error hinit] at herr
      simp only [Except.error.injEq] at herr
      exact Or.inr (Or.inl ⟨ie, herr.symm⟩)
    | ok u =>
      cases u
      cases hcw : host.createWindow width height title WindowMode.Windowed with
      | none =>
        have hw : openWindow host title win_opt.dim =
            Except.error GlfwSurfaceError.WindowCreationFailed := by
          simp [openWindow, hdim, hcw]
        rw [new_gl33_window_error hinit hw] at herr
        simp only [Except.error.injEq] at herr
        exact Or.inl herr.symm
      | some cw =>
        have hw : openWindow host title win_opt.dim =
            Except.ok (mkWindow width height WindowMode.Windowed cw, cw.eventsRx) := by
          simp [openWindow, hdim, hcw]
        rw [new_gl33_of_stages hinit hw] at herr
        cases hgl : GL33.new (configuredSys sys win_opt) host with
        | error se =>
          rw [hgl] at herr
          simp only [Except.error.injEq] at herr
          exact Or.inr (Or.inr ⟨se, herr.symm⟩)
        | ok p =>
          rw [hgl] at herr
          exact absurd herr (by simp)

/-- C5 amended witness: on a host where window creation fails, a windowed
800×600 construction fails with `WindowCreationFailed` (first disjunct). -/
theorem windowed_construction_amended_witness :
    GlfwSurfaceError.WindowCreationFailed = GlfwSurfaceError.WindowCreationFailed ∨
    (∃ ie, GlfwSurfaceError.WindowCreationFailed = GlfwSurfaceError.InitError ie) ∨
    (∃ se, GlfwSurfaceError.WindowCreationFailed = GlfwSurfaceError.GraphicsStateError se) :=
  (windowed_construction_amended "t" optWindowed 800 600 sys0 noWindowHost rfl
    (by decide) (by decide)).2 GlfwSurfaceError.WindowCreationFailed (by decide)

/-- C6: `backend()` has no failure mode: it is a total function returning
exclusive mutable access to the single owned backend instance — the `gl`
field — both through the `GraphicsContext` implementation of `GlfwSurface`
and directly; writing the unchanged backend back leaves the context
unchanged, and writing through the access updates exactly the owned
instance. -/
theorem backend_no_failure (s : GlfwSurface) :
    glfwGraphicsContext.backend s = s.gl ∧
    GlfwSurface.backend s = s.gl ∧
    s.withBackend (GlfwSurface.backend s) = s ∧
    (∀ g, (glfwGraphicsContext.withBackend s g).gl = g) :=
  ⟨rfl, rfl, rfl, fun _ => rfl⟩

/-- C7: `back_buffer()` queries the window's current framebuffer
dimensions and requests the back buffer — a zero-color-channel,
zero-depth-slot framebuffer — at exactly that size (for in-range
non-negative reported dimensions), propagating the backend's framebuffer
error exactly when the backend rejects that size. -/
theorem back_buffer_exact_size (cap : BackBufferCap) (s : GlfwSurface) (w h : Int)
    (hfb : s.window.framebufferSize = (w, h)) (hw0 : 0 ≤ w) (hw1 : w < 2 ^ 31)
    (hh0 : 0 ≤ h) (hh1 : h < 2 ^ 31) :
    GlfwSurface.back_buffer cap s = Framebuffer.back_buffer cap s (w.toNat, h.toNat) ∧
    (∀ fb s', GlfwSurface.back_buffer cap s = Except.ok (fb, s') →
      fb.size = (w.toNat, h.toNat) ∧ fb.colorSlot = () ∧ fb.depthSlot = ()) ∧
    (∀ e, GlfwSurface.back_buffer cap s = Except.error e ↔
      cap.run s.gl (w.toNat, h.toNat) = Except.error e) := by
  have hwmod : i32_as_u32 w = w.toNat := by
    unfold i32_as_u32
    rw [Int.emod_eq_of_lt hw0 (by omega)]
  have hhmod : i32_as_u32 h = h.toNat := by
    unfold i32_as_u32
    rw [Int.emod_eq_of_lt hh0 (by omega)]
  have heq : GlfwSurface.back_buffer cap s = Framebuffer.back_buffer cap s (w.toNat, h.toNat) := by
    unfold GlfwSurface.back_buffer
    rw [hfb]
    rw [show ((w, h).1 : Int) = w from rfl, show ((w, h).2 : Int) = h from rfl, hwmod, hhmod]
  refine ⟨heq, ?_, ?_⟩
  · intro fb s' hok
    rw [heq] at hok
    unfold Framebuffer.back_buffer at hok
    cases hrun : cap.run s.gl (w.toNat, h.toNat) with
    | ok gl =>
      rw [hrun] at hok
      simp only [Except.ok.injEq, Prod.mk.injEq] at hok
      rw [← hok.1]
      exact ⟨rfl, rfl, rfl⟩
    | error e =>
      rw [hrun] at hok
      exact absurd hok (by simp)
  · intro e
    rw [heq]
    unfold Framebuffer.back_buffer
    cases hrun : cap.run s.gl (w.toNat, h.toNat) with
    | ok gl => simp
    | error e' => simp

/-- C7 witness: on a surface reporting an 800×600 framebuffer with an
accepting backend, `back_buffer` requests exactly size (800, 600). -/
theorem back_buffer_exact_size_witness :
    GlfwSurface.back_buffer acceptAllCap sampleSurface =
      Framebuffer.back_buffer acceptAllCap sampleSurface (800, 600) :=
  (back_buffer_exact_size acceptAllCap sampleSurface 800 600 rfl
    (by decide) (by decide) (by decide) (by decide)).1

/-- C8: Whenever construction succeeds, the configured cursor mode has
been applied to the window under the mapping `cursorModeGlfw` (visible /
hidden-but-free / captured-and-disabled), delivery of all event categories
has been enabled, and the swap interval is exactly `Sync 1`; moreover the
input-configuration stage itself has no failure mode: once the window
stage has succeeded, construction can only fail at backend state
acquisition. -/
theorem input_configuration_applied (title : String) (win_opt : WindowOpt) (sys : Sys)
    (host : Host) :
    (∀ s sys', GlfwSurface.new_gl33 title win_opt sys host = Except.ok (s, sys') →
      s.window.cursorMode = cursorModeGlfw win_opt.cursor_mode ∧
      s.window.allPolling = true ∧
      sys'.swapInterval = some (SwapInterval.Sync 1)) ∧
    (host.initResult = Except.ok () →
      (∃ w rx, openWindow host title win_opt.dim = Except.ok (w, rx)) →
      ((∃ s sys', GlfwSurface.new_gl33 title win_opt sys host = Except.ok (s, sys')) ∨
       (∃ se, GlfwSurface.new_gl33 title win_opt sys host =
         Except.error (GlfwSurfaceError.GraphicsStateError se)))) := by
  constructor
  · intro s sys' hok
    obtain ⟨-, ⟨w, rx, -, hsw, -⟩, hgl⟩ := new_gl33_ok_elim hok
    refine ⟨?_, ?_, ?_⟩
    · rw [hsw]
      cases hcm : win_opt.cursor_mode <;> simp [configuredWindow, cursorModeGlfw, hcm]
    · rw [hsw]
      rfl
    · rw [GL33.new_ok_sys hgl]
      rfl
  · intro hinit ⟨w, rx, hw⟩
    rw [new_gl33_of_stages hinit hw]
    cases hgl : GL33.new (configuredSys sys win_opt) host with
    | error se => exact Or.inr ⟨se, rfl⟩
    | ok p =>
      cases p with
      | mk g sys' => exact Or.inl ⟨_, _, rfl⟩

/-- C8 witness: the concrete windowed construction on `goodHost` applies
the visible-cursor mapping, enables all polling, and sets swap interval 1. -/
theorem input_configuration_applied_witness :
    okSurface.window.cursorMode = cursorModeGlfw optWindowed.cursor_mode ∧
    okSurface.window.allPolling = true ∧
    okSys.swapInterval = some (SwapInterval.Sync 1) :=
  (input_configuration_applied "t" optWindowed sys0 goodHost).1 okSurface okSys (by decide)

/-- C9: `back_buffer` converts the window's signed framebuffer dimensions
to unsigned 32-bit values by wrapping: for a negative reported width the
requested value is the width plus `2^32` (its value modulo `2^32`), which
is at least `2^31` — neither a failure nor a clamp to zero. -/
theorem back_buffer_wrapping_cast (cap : BackBufferCap) (s : GlfwSurface) (w h : Int)
    (hfb : s.window.framebufferSize = (w, h)) (hlo : -(2 ^ 31) ≤ w) (hneg : w < 0) :
    i32_as_u32 w = (w + 2 ^ 32).toNat ∧
    2 ^ 31 ≤ i32_as_u32 w ∧
    GlfwSurface.back_buffer cap s = Framebuffer.back_buffer cap s (i32_as_u32 w, i32_as_u32 h) := by
  have h32 : (2 : Int) ^ 32 = 4294967296 := by norm_num
  have h31 : (2 : Int) ^ 31 = 2147483648 := by norm_num
  have hn31 : (2 : ℕ) ^ 31 = 2147483648 := by norm_num
  refine ⟨?_, ?_, ?_⟩
  · unfold i32_as_u32
    rw [h31] at hlo
    rw [h32]
    omega
  · unfold i32_as_u32
    rw [h31] at hlo
    rw [hn31, h32]
    omega
  · unfold GlfwSurface.back_buffer
    rw [hfb]

/-- C9 witness: a window reporting width −1 requests the back buffer at
the wrapped width `2^32 − 1 ≥ 2^31`. -/
theorem back_buffer_wrapping_cast_witness :
    2 ^ 31 ≤ i32_as_u32 (-1) :=
  (back_buffer_wrapping_cast acceptAllCap negSurface (-1) 600 rfl
    (by decide) (by decide)).2.1

/-- C10: `backend()` on a `GlfwSurface` is a pure projection of the `gl`
field: it performs no call into the window system or the GPU, and writing
through the returned mutable access leaves the `window` and `events_rx`
fields untouched, changing only `gl`; writing back the unchanged backend
is the identity. -/
theorem backend_pure_projection (s : GlfwSurface) (g : GL33) :
    GlfwSurface.backend s = s.gl ∧
    (s.withBackend g).window = s.window ∧
    (s.withBackend g).events_rx = s.events_rx ∧
    (s.withBackend g).gl = g ∧
    s.withBackend (GlfwSurface.backend s) = s :=
  ⟨rfl, rfl, rfl, rfl, rfl⟩

end Luminance
